import Mathlib

/-!
Verification of the `mma-analytics-ML` repository bootstrap utilities.

The development shallowly embeds three parts of the repository:

* the UFCStats scrape-request contract (the JSON-schema document
  `specs/001-setup-tasks-set/contracts/ufcscrape.json` consumed by
  `tests/contract/test_ufcscrape.py`, validated by the generic
  `jsonschema.validate` capability),
* the directory initializer `scripts/setup/init_dirs.py`, and
* the environment validator `src/utils/environment.py`.

Filesystem and interpreter state are passed explicitly; fallible code
returns `Except` or an `Option`al raised error.
-/

set_option maxHeartbeats 1000000
set_option maxRecDepth 8192

/-! ## JSON values (records validated by the contract tests) -/

/-- A JSON value, as handed to the schema validation capability. -/
inductive JVal where
  | jnull : JVal
  | jbool : Bool → JVal
  | jnum : Rat → JVal
  | jstr : String → JVal
  | jarr : List JVal → JVal
  | jobj : List (String × JVal) → JVal

/-- Field lookup in a JSON object (first binding wins). -/
def getField : List (String × JVal) → String → Option JVal
  | [], _ => none
  | (k, v) :: rest, key => if k == key then some v else getField rest key

/-- `YYYY-MM-DD` shape check on the character list of a string. -/
def isIsoDateChars : List Char → Bool
  | [y1, y2, y3, y4, d1, m1, m2, d2, a1, a2] =>
      y1.isDigit && y2.isDigit && y3.isDigit && y4.isDigit && d1 == '-' &&
      m1.isDigit && m2.isDigit && d2 == '-' && a1.isDigit && a2.isDigit
  | _ => false

/-- Modelled from the spec: the ISO-8601 calendar-date (`YYYY-MM-DD`) string
format check applied by the validation capability; the concrete checker is
not part of the repository source. -/
def isIsoDate (s : String) : Bool := isIsoDateChars s.data

/-! ## Schema model

Modelled from the spec: the contract document `ufcscrape.json` is not under
the provided source tree (only the tests that load it are), so the schema
shapes below follow the spec's description of the document: per-property
`type`/`enum`/`minimum`/`maximum`/`exclusiveMinimum`/`format` constraints
plus a `required` name set, with unknown extra fields permitted. -/

/-- Primitive JSON-schema type tags. -/
inductive JTy where
  | tstr : JTy
  | tint : JTy
  | tnum : JTy
  | tbool : JTy
  | tobj : JTy
  | tarr : JTy

/-- Does a JSON value match a declared type? An integer is a number with
denominator one. -/
def typeOk : JTy → JVal → Bool
  | JTy.tstr, JVal.jstr _ => true
  | JTy.tint, JVal.jnum q => q.den == 1
  | JTy.tnum, JVal.jnum _ => true
  | JTy.tbool, JVal.jbool _ => true
  | JTy.tobj, JVal.jobj _ => true
  | JTy.tarr, JVal.jarr _ => true
  | _, _ => false

/-- Scalar constraints of one schema property: type, string enum, numeric
lower/upper bound (each with a strictness flag), string format. -/
structure LeafSchema where
  ty : JTy
  enumVals : Option (List String)
  minB : Option (Rat × Bool)
  maxB : Option (Rat × Bool)
  fmt : Option String

/-- One property of an object schema: its scalar constraints plus, when the
property is itself an object, its nested properties and required names. -/
structure PropSchema where
  leaf : LeafSchema
  objProps : List (String × LeafSchema)
  objRequired : List String

/-- A top-level object schema: named properties and required names. -/
structure ObjSchema where
  props : List (String × PropSchema)
  required : List String

/-- Modelled from the spec: scalar validation of one value against one
property's constraints, as performed by the external schema-validation
capability. Numeric bounds and formats apply to values of the matching
shape; the type check rejects the rest. -/
def validateLeaf (s : LeafSchema) (v : JVal) : Bool :=
  typeOk s.ty v &&
  (match s.enumVals with
   | none => true
   | some vs =>
     match v with
     | JVal.jstr str => vs.contains str
     | _ => false) &&
  (match s.minB, v with
   | some (b, strict), JVal.jnum q => if strict then decide (b < q) else decide (b ≤ q)
   | _, _ => true) &&
  (match s.maxB, v with
   | some (b, strict), JVal.jnum q => if strict then decide (q < b) else decide (q ≤ b)
   | _, _ => true) &&
  (match s.fmt, v with
   | some f, JVal.jstr str => if f == "date" then isIsoDate str else true
   | _, _ => true)

/-- Validate an object's fields against a property list and required list:
every required name is present, and every declared property that is present
satisfies its scalar constraints. Extra fields are permitted. -/
def validateObjWith (props : List (String × LeafSchema)) (required : List String)
    (fields : List (String × JVal)) : Bool :=
  required.all (fun k => (getField fields k).isSome) &&
  props.all (fun kv =>
    match getField fields kv.1 with
    | none => true
    | some v => validateLeaf kv.2 v)

/-- Validate one value against one property schema: the scalar constraints,
and — when the property is an object — its nested properties. -/
def validateProp (p : PropSchema) (v : JVal) : Bool :=
  validateLeaf p.leaf v &&
  (match v with
   | JVal.jobj fs => validateObjWith p.objProps p.objRequired fs
   | _ => true)

/-- Modelled from the spec: the generic validation capability
(`validate(record, schema)`) applied to a top-level object schema. A
non-object candidate fails; otherwise every required name must be present
and every declared property that is present must validate. -/
def validateObj (s : ObjSchema) (v : JVal) : Bool :=
  match v with
  | JVal.jobj fields =>
      s.required.all (fun k => (getField fields k).isSome) &&
      s.props.all (fun kv =>
        match getField fields kv.1 with
        | none => true
        | some v2 => validateProp kv.2 v2)
  | _ => false

/-- A property holding a plain string. -/
def strLeaf : LeafSchema :=
  { ty := JTy.tstr, enumVals := none, minB := none, maxB := none, fmt := none }

/-- A property holding an ISO-8601 calendar-date string. -/
def dateLeaf : LeafSchema :=
  { ty := JTy.tstr, enumVals := none, minB := none, maxB := none, fmt := some "date" }

/-- A leaf-level property with no scalar constraint beyond a type. -/
def tyLeaf (t : JTy) : LeafSchema :=
  { ty := t, enumVals := none, minB := none, maxB := none, fmt := none }

/-- Lift a leaf to a property with no nested object constraints. -/
def leafProp (s : LeafSchema) : PropSchema :=
  { leaf := s, objProps := [], objRequired := [] }

/-- Modelled from the spec: the `input` shape of the scrape contract —
`scrape_type` (enum of fighters/bouts/events/all) and `output_dir` (string)
required; optional `date_range` (object of ISO dates), `batch_size`
(integer in [1, 1000]) and `delay_seconds` (number in (0.0, 5.0]). -/
def ufcscrapeInputSchema : ObjSchema :=
  { props :=
      [("scrape_type", leafProp
          { ty := JTy.tstr, enumVals := some ["fighters", "bouts", "events", "all"],
            minB := none, maxB := none, fmt := none }),
       ("output_dir", leafProp strLeaf),
       ("date_range",
          { leaf := tyLeaf JTy.tobj,
            objProps := [("start_date", dateLeaf), ("end_date", dateLeaf)],
            objRequired := [] }),
       ("batch_size", leafProp
          { ty := JTy.tint, enumVals := none,
            minB := some (1, false), maxB := some (1000, false), fmt := none }),
       ("delay_seconds", leafProp
          { ty := JTy.tnum, enumVals := none,
            minB := some (0, true), maxB := some (5, false), fmt := none })],
    required := ["scrape_type", "output_dir"] }

/-- Validation of a candidate scrape request against the contract's input
schema, as exercised by `tests/contract/test_ufcscrape.py`. -/
def validateScrapeRequest (v : JVal) : Bool :=
  validateObj ufcscrapeInputSchema v

/-! ## Directory initializer (`scripts/setup/init_dirs.py`)

The filesystem is modelled as two lists of path strings (directories and
regular files), relative to the resolved base directory. Directory paths in
the fixed structure end in `/`, so the marker file of `d` is `d ++
".gitkeep"`. The operating system's failure behaviour is an explicit oracle
(`DirWorld`); exceptions raised by `_create_directory` are modelled as an
`Option`al error message returned next to the mutated state, which the
caller's `try/except` turns into an appended error entry. -/

/-- A flat filesystem snapshot: directory paths and file paths. -/
structure FS where
  dirs : List String
  files : List String

/-- `Path.exists()`: the path is present as a directory or as a file. -/
def pathExists (fs : FS) (p : String) : Bool :=
  fs.dirs.contains p || fs.files.contains p

/-- All ancestor directories of a path, itself included: every prefix of
the string that ends right after a `/`. `mkdir(parents=True)` creates all
of them. -/
def dirAncestors (p : String) : List String :=
  (List.range p.data.length).filterMap (fun i =>
    if p.data.get? i == some '/' then some (String.mk (p.data.take (i + 1))) else none)

/-- `mkdir(parents=True, exist_ok=True)`: add the path and its ancestors. -/
def mkdirParents (fs : FS) (p : String) : FS :=
  { fs with dirs := fs.dirs ++ dirAncestors p }

/-- `shutil.rmtree` / `rmdir` / `unlink`: drop the path and everything
below it. -/
def removePath (fs : FS) (p : String) : FS :=
  { dirs := fs.dirs.filter (fun d => !(p.isPrefixOf d)),
    files := fs.files.filter (fun f2 => !(p.isPrefixOf f2)) }

/-- Operating-system failure oracle for one run: which paths fail to be
created (`PermissionError`/`OSError` from `mkdir`), which marker-file
touches fail, and which removals fail in force mode. -/
structure DirWorld where
  mkdirFails : String → Bool
  touchFails : String → Bool
  removeFails : String → Bool

/-- A run in which every filesystem operation succeeds. -/
def noFailWorld : DirWorld :=
  { mkdirFails := fun _ => false, touchFails := fun _ => false, removeFails := fun _ => false }

/-- The mutable fields of `DirectoryInitializer` plus the filesystem. -/
structure InitState where
  fs : FS
  created_dirs : List String
  errors : List String

/-- The `mkdir` + `created_dirs.append` + `.gitkeep` touch tail of
`_create_directory` (lines 166–179): on `mkdir` failure the wrapped
exception is raised before any mutation; on touch failure the directory was
already created and recorded, and the wrapped exception is raised. -/
def mkdirAndTouch (w : DirWorld) (st : InitState) (dirPath : String) :
    InitState × Option String :=
  if w.mkdirFails dirPath then
    (st, some ("Permission denied creating " ++ dirPath))
  else
    let st1 : InitState :=
      { st with fs := mkdirParents st.fs dirPath,
                created_dirs := st.created_dirs ++ [dirPath] }
    if w.touchFails dirPath then
      (st1, some ("OS error creating " ++ dirPath))
    else
      ({ st1 with fs := { st1.fs with files := st1.fs.files ++ [dirPath ++ ".gitkeep"] } },
       none)

/-- `DirectoryInitializer._create_directory` (lines 139–179): an existing
path is skipped in default mode and removed first in force mode; the
returned `Option String` is the raised exception's message, `none` when the
call returns normally. -/
def create_directory (w : DirWorld) (force : Bool) (st : InitState) (dirPath : String) :
    InitState × Option String :=
  if pathExists st.fs dirPath then
    if !force then
      (st, none)
    else
      if w.removeFails dirPath then
        (st, some ("Failed to remove existing " ++ dirPath))
      else
        mkdirAndTouch w { st with fs := removePath st.fs dirPath } dirPath
  else
    mkdirAndTouch w st dirPath

/-- One iteration of the loop in `create_directory_structure` (lines
63–70): call `_create_directory` and turn a raised exception into an
appended aggregated error. -/
def createStep (w : DirWorld) (force : Bool) (st : InitState) (dirPath : String) : InitState :=
  match create_directory w force st dirPath with
  | (st1, none) => st1
  | (st1, some msg) => { st1 with errors := st1.errors ++ ["Failed to create " ++ dirPath ++ ": " ++ msg] }

/-- Process a list of directory entries in order. -/
def runDirs (w : DirWorld) (force : Bool) (st : InitState) (ds : List String) : InitState :=
  ds.foldl (createStep w force) st

/-- `DirectoryInitializer._get_directory_structure` (lines 87–137): the
fixed relative directory list, in source order. -/
def directoryStructure : List String :=
  ["src/",
   "src/ingest/",
   "src/video/",
   "src/utils/",
   "data/",
   "data/raw/",
   "data/processed/",
   "data/fixtures/",
   "data/fixtures/sample_ufcstats/",
   "data/fixtures/sample_videos/",
   "tests/",
   "tests/contract/",
   "tests/integration/",
   "tests/unit/",
   "tests/performance/",
   "scripts/",
   "scripts/setup/",
   "scripts/runners/",
   "notebooks/",
   "notebooks/analysis/",
   "notebooks/templates/",
   "docs/",
   "models/",
   "specs/",
   "specs/001-setup-tasks-set/",
   "specs/001-setup-tasks-set/contracts/",
   "memory/",
   "logs/"]

/-- The result record compiled at the end of `create_directory_structure`
(lines 72–81); the timing field is not modelled. -/
structure InitResult where
  created_directories : List String
  errors : List String
  total_created : Nat
  total_errors : Nat
  success : Bool

/-- `DirectoryInitializer.create_directory_structure` (lines 49–85): fold
the creation step over the fixed list, then compile the result record.
Also returns the final filesystem. -/
def create_directory_structure (w : DirWorld) (force : Bool) (fs0 : FS) : InitResult × FS :=
  let st := runDirs w force { fs := fs0, created_dirs := [], errors := [] } directoryStructure
  ({ created_directories := st.created_dirs,
     errors := st.errors,
     total_created := st.created_dirs.length,
     total_errors := st.errors.length,
     success := st.errors.length == 0 },
   st.fs)

/-- Round a rational to the nearest integer, ties to even — the semantics
of Python's built-in `round` on exactly representable values. -/
def roundHalfEven (q : Rat) : Int :=
  let n : Int := q.floor
  let frac : Rat := q - (n : Rat)
  if frac < 1 / 2 then n
  else if 1 / 2 < frac then n + 1
  else if n % 2 == 0 then n else n + 1

/-- Python's `round(x, 1)` on an exact rational input. -/
def pyRound1 (q : Rat) : Rat :=
  ((roundHalfEven (q * 10) : Rat)) / 10

/-- The result record of `DirectoryInitializer.validate_structure`
(lines 181–205). -/
structure StructureReport where
  required_directories : Nat
  existing_directories : Nat
  missing_directories : Nat
  missing_directory_list : List String
  validation_passed : Bool
  completeness_percentage : Rat

/-- `DirectoryInitializer.validate_structure` (lines 181–205): partition
the required list into existing directories (path present as a directory)
and missing ones, and report a completeness percentage. -/
def validate_structure (fs : FS) : StructureReport :=
  let required_dirs := directoryStructure
  let existing_dirs := required_dirs.filter (fun d => fs.dirs.contains d)
  let missing_dirs := required_dirs.filter (fun d => !(fs.dirs.contains d))
  { required_directories := required_dirs.length,
    existing_directories := existing_dirs.length,
    missing_directories := missing_dirs.length,
    missing_directory_list := missing_dirs,
    validation_passed := missing_dirs.length == 0,
    completeness_percentage :=
      pyRound1 (((existing_dirs.length : Rat) / (required_dirs.length : Rat)) * 100) }

/-- The exit-code computation of `init_dirs.main` (lines 283–284):
`results.get("success", results.get("validation_passed", False))` — the
create-mode record carries `success`, the validate-mode record carries
`validation_passed`. Zero on success, one otherwise. -/
def init_main_exit (w : DirWorld) (force validateMode : Bool) (fs0 : FS) : Nat :=
  if validateMode then
    if (validate_structure fs0).validation_passed then 0 else 1
  else
    if (create_directory_structure w force fs0).1.success then 0 else 1

/-! ## Environment validator (`src/utils/environment.py`)

Probe results are Python dictionaries with fixed key sets; they are
modelled as association lists of Python values so that the `dict.get`
lookups of `main`'s exit-code computation can be embedded as written.
Interpreter and machine state (installed packages, GPU, memory, disk) is an
explicit environment record. -/

/-- A Python value as it occurs in the probe result dictionaries. -/
inductive PyVal where
  | pynone : PyVal
  | pybool : Bool → PyVal
  | pyint : Int → PyVal
  | pynum : Rat → PyVal
  | pystr : String → PyVal
  | pystrs : List String → PyVal

/-- Python's `d.get(key, default)` on an association-list dictionary. -/
def pyGet (d : List (String × PyVal)) (key : String) (dflt : PyVal) : PyVal :=
  match d with
  | [] => dflt
  | (k, v) :: rest => if k == key then v else pyGet rest key dflt

/-- Python's `d[key] = v` on an association-list dictionary: overwrite the
existing binding or append a fresh one. -/
def setK (d : List (String × PyVal)) (key : String) (v : PyVal) :
    List (String × PyVal) :=
  match d with
  | [] => [(key, v)]
  | (k, v1) :: rest => if k == key then (key, v) :: rest else (k, v1) :: setK rest key v

/-- Python truthiness of a value, as applied by `all(...)` in `main`. -/
def truthy : PyVal → Bool
  | PyVal.pynone => false
  | PyVal.pybool b => b
  | PyVal.pyint n => n != 0
  | PyVal.pynum q => q != 0
  | PyVal.pystr s => s != ""
  | PyVal.pystrs l => !l.isEmpty

/-- Python tuple comparison `sys.version_info[:3] >= (min_major,
min_minor)`: lexicographic on the shared length, the longer tuple winning a
tie. -/
def versionMeets (current : Nat × Nat × Nat) (minv : Nat × Nat) : Bool :=
  minv.1 < current.1 || (current.1 == minv.1 && minv.2 ≤ current.2.1)

/-- `EnvironmentValidator.validate_python_version` (lines 56–82), with the
interpreter version and platform strings passed explicitly; the result
dictionary in source assignment order. -/
def validate_python_version (current : Nat × Nat × Nat) (minv : Nat × Nat)
    (platformStr archStr : String) : List (String × PyVal) :=
  let current_str :=
    toString current.1 ++ "." ++ toString current.2.1 ++ "." ++ toString current.2.2
  let min_required := toString minv.1 ++ "." ++ toString minv.2 ++ ".0"
  let is_valid := versionMeets current minv
  let base :=
    [("python_version", PyVal.pystr current_str),
     ("min_required", PyVal.pystr min_required),
     ("is_valid", PyVal.pybool is_valid),
     ("platform", PyVal.pystr platformStr),
     ("architecture", PyVal.pystr archStr)]
  if !is_valid then
    setK (setK base "message"
        (PyVal.pystr ("Python " ++ min_required ++ " or higher required (found: " ++ current_str ++ ")")))
      "recommendation" (PyVal.pystr "Please upgrade Python or use a compatible environment")
  else
    setK base "message" (PyVal.pystr ("Python version " ++ current_str ++ " meets requirements"))

/-- `EnvironmentValidator._get_import_name` (lines 215–226). -/
def get_import_name (package_name : String) : String :=
  let l := package_name.toLower
  if l == "opencv" then "cv2"
  else if l == "opencv-python" then "cv2"
  else if l == "beautifulsoup4" then "bs4"
  else if l == "scikit-learn" then "sklearn"
  else if l == "pytorch" then "torch"
  else if l == "torchvision" then "torchvision"
  else if l == "torchaudio" then "torchaudio"
  else l

/-- The default `required_packages` list of `validate_dependencies`
(lines 86–93). -/
def defaultPackages : List String :=
  ["torch", "torchvision", "torchaudio",
   "pandas", "numpy", "sklearn",
   "cv2", "matplotlib", "seaborn",
   "requests", "beautifulsoup4",
   "jupyter", "pytest", "psutil"]

/-- The mutable counters of the `validate_dependencies` loop. -/
structure DepsAcc where
  installed : List String
  missing : List String
  installed_count : Nat
  missing_count : Nat

/-- One iteration of the package loop (lines 105–119): `findSpec` tells
whether `importlib.util.find_spec` returns a spec for the import name (an
exception inside the probe also lands in the missing bucket). -/
def depsStep (findSpec : String → Bool) (r : DepsAcc) (package : String) : DepsAcc :=
  let import_name := get_import_name package
  if findSpec import_name then
    { r with installed := r.installed ++ [package],
             installed_count := r.installed_count + 1 }
  else
    { r with missing := r.missing ++ [package],
             missing_count := r.missing_count + 1 }

/-- The result record of `validate_dependencies`; the `dependencies` entry
is initialised to the empty list and never filled by the source. -/
structure DepsResult where
  dependencies : List String
  installed : List String
  missing : List String
  total_packages : Nat
  installed_count : Nat
  missing_count : Nat
  success_rate : Rat

/-- `EnvironmentValidator.validate_dependencies` (lines 84–127): count
installed and missing packages, then compute `success_rate =
round(installed_count / total_packages * 100, 1)`. The division is not
guarded, so an empty package list raises `ZeroDivisionError`, modelled as
`Except.error`. -/
def validate_dependencies (required_packages : List String) (findSpec : String → Bool) :
    Except String DepsResult :=
  let total_packages := required_packages.length
  let acc := required_packages.foldl (depsStep findSpec)
    { installed := [], missing := [], installed_count := 0, missing_count := 0 }
  if total_packages == 0 then
    Except.error "ZeroDivisionError"
  else
    Except.ok
      { dependencies := [],
        installed := acc.installed,
        missing := acc.missing,
        total_packages := total_packages,
        installed_count := acc.installed_count,
        missing_count := acc.missing_count,
        success_rate :=
          pyRound1 (((acc.installed_count : Rat) / (total_packages : Rat)) * 100) }

/-- The probe result dictionary built from a `DepsResult`, in source key
order (lines 95–103 and 121). -/
def depsDict (r : DepsResult) : List (String × PyVal) :=
  [("dependencies", PyVal.pystrs r.dependencies),
   ("installed", PyVal.pystrs r.installed),
   ("missing", PyVal.pystrs r.missing),
   ("total_packages", PyVal.pyint r.total_packages),
   ("installed_count", PyVal.pyint r.installed_count),
   ("missing_count", PyVal.pyint r.missing_count),
   ("success_rate", PyVal.pynum r.success_rate)]

/-- The GPU-related machine state probed by `validate_gpu`: whether `import
torch` succeeds, what `torch.cuda` reports, and what `nvidia-smi` returns. -/
structure GpuEnv where
  torchOk : Bool
  cudaAvailable : Bool
  gpuName : String
  totalMemoryBytes : Rat
  allocatedMemoryBytes : Rat
  smiOk : Bool
  smiCudaVersion : String

/-- `EnvironmentValidator.validate_gpu` (lines 129–183): start from the
all-failure dictionary and mutate it along the branches of the source.
`torch` failing to import leaves `status` at `"fail"`; so does
`torch.cuda.is_available()` returning false. -/
def validate_gpu (e : GpuEnv) : List (String × PyVal) :=
  let result : List (String × PyVal) :=
    [("gpu_available", PyVal.pybool false),
     ("cuda_available", PyVal.pybool false),
     ("gpu_name", PyVal.pynone),
     ("gpu_memory_total_gb", PyVal.pyint 0),
     ("gpu_memory_available_gb", PyVal.pyint 0),
     ("cuda_version", PyVal.pynone),
     ("pytorch_cuda_available", PyVal.pybool false),
     ("status", PyVal.pystr "fail"),
     ("message", PyVal.pystr "GPU validation failed")]
  let result :=
    if e.torchOk then
      let result := setK result "pytorch_cuda_available" (PyVal.pybool e.cudaAvailable)
      if e.cudaAvailable then
        let total_gb := pyRound1 (e.totalMemoryBytes / 1000000000)
        let avail_gb := pyRound1 (e.allocatedMemoryBytes / 1000000000)
        let result := setK result "gpu_available" (PyVal.pybool true)
        let result := setK result "cuda_available" (PyVal.pybool true)
        let result := setK result "gpu_name" (PyVal.pystr e.gpuName)
        let result := setK result "gpu_memory_total_gb" (PyVal.pynum total_gb)
        let result := setK result "gpu_memory_available_gb" (PyVal.pynum avail_gb)
        let result := setK result "status" (PyVal.pystr "pass")
        setK result "message"
          (PyVal.pystr ("GPU detected: " ++ e.gpuName ++ " with " ++ toString total_gb ++ "GB memory"))
      else
        setK result "message" (PyVal.pystr "No CUDA-enabled GPU detected by PyTorch")
    else
      setK result "message" (PyVal.pystr "PyTorch not available for GPU validation")
  if e.smiOk then setK result "cuda_version" (PyVal.pystr e.smiCudaVersion) else result

/-- The machine state probed by `validate_system_resources` via `psutil`,
in raw bytes plus the percent figures `psutil` reports. -/
structure SysEnv where
  memTotalBytes : Rat
  memAvailableBytes : Rat
  memPercent : Rat
  diskTotalBytes : Rat
  diskFreeBytes : Rat
  diskPercent : Rat

/-- `EnvironmentValidator.validate_system_resources` (lines 185–213):
report memory and disk figures, downgrading `status` to `"warn"` below 8 GB
of available memory and to `"warn"`/`"fail"` below 20 GB of free disk. -/
def validate_system_resources (e : SysEnv) : List (String × PyVal) :=
  let mem_avail_gb := pyRound1 (e.memAvailableBytes / 1000000000)
  let disk_free_gb := pyRound1 (e.diskFreeBytes / 1000000000)
  let result : List (String × PyVal) :=
    [("system_memory_total_gb", PyVal.pynum (pyRound1 (e.memTotalBytes / 1000000000))),
     ("system_memory_available_gb", PyVal.pynum mem_avail_gb),
     ("system_memory_percent_used", PyVal.pynum e.memPercent),
     ("disk_total_gb", PyVal.pynum (pyRound1 (e.diskTotalBytes / 1000000000))),
     ("disk_free_gb", PyVal.pynum disk_free_gb),
     ("disk_percent_used", PyVal.pynum e.diskPercent),
     ("status", PyVal.pystr "pass"),
     ("message", PyVal.pystr "System resources validation completed")]
  let lowMem := mem_avail_gb < 8
  let msg1 : String :=
    if lowMem then
      "Low system memory: " ++ toString mem_avail_gb ++ "GB available (8GB recommended)"
    else "System resources validation completed"
  let result :=
    if lowMem then
      setK (setK result "status" (PyVal.pystr "warn")) "message" (PyVal.pystr msg1)
    else result
  if disk_free_gb < 20 then
    setK (setK result "status" (PyVal.pystr (if !lowMem then "warn" else "fail")))
      "message"
      (PyVal.pystr (msg1 ++ ", Low disk space: " ++ toString disk_free_gb ++ "GB free (20GB recommended)"))
  else result

/-- The probe-selection flags of `environment.main` (the `--format json`
branch, which wraps every result in a string before the exit-code check, is
not modelled: the default `dict` format is). -/
structure EnvArgs where
  python : Bool
  dependencies : Bool
  gpu : Bool
  system : Bool

/-- The machine and interpreter state one run of `environment.main`
observes. -/
structure EnvWorld where
  currentVersion : Nat × Nat × Nat
  platformStr : String
  archStr : String
  findSpec : String → Bool
  gpu : GpuEnv
  sys : SysEnv

/-- `environment.main` (lines 229–306) in the default `dict` format:
apply the all-probes default, run the requested probes in order, and exit
with `0` iff `all(result.get("is_valid", result.get("success", True)))`
over the collected result dictionaries (lines 289–296). An exception from a
probe (the unguarded division of `validate_dependencies`) is caught by the
outer handler, which exits with `1`. Returns the collected results and the
exit code. -/
def env_main (args : EnvArgs) (w : EnvWorld) :
    List (String × List (String × PyVal)) × Nat :=
  let a : EnvArgs :=
    if !(args.python || args.dependencies || args.gpu || args.system) then
      { python := true, dependencies := true, gpu := true, system := true }
    else args
  let depsRun : Except String DepsResult := validate_dependencies defaultPackages w.findSpec
  match a.dependencies, depsRun with
  | true, Except.error _ =>
      (if a.python then
         [("python", validate_python_version w.currentVersion (3, 11) w.platformStr w.archStr)]
       else [],
       1)
  | _, _ =>
      let depsOk : List (String × PyVal) :=
        match depsRun with
        | Except.ok r => depsDict r
        | Except.error _ => []
      let results : List (String × List (String × PyVal)) :=
        (if a.python then
           [("python", validate_python_version w.currentVersion (3, 11) w.platformStr w.archStr)]
         else []) ++
        (if a.dependencies then [("dependencies", depsOk)] else []) ++
        (if a.gpu then [("gpu", validate_gpu w.gpu)] else []) ++
        (if a.system then [("system", validate_system_resources w.sys)] else [])
      let success := results.all (fun kv =>
        truthy (pyGet kv.2 "is_valid" (pyGet kv.2 "success" (PyVal.pybool true))))
      (results, if success then 0 else 1)

/-! ## Helper lemmas -/

theorem all_of_perm {α : Type} {l l2 : List α} (h : l.Perm l2) (f : α → Bool) :
    l.all f = l2.all f := by
  induction h with
  | nil => rfl
  | cons a _ ih => simp [List.all_cons, ih]
  | swap a b l =>
      simp only [List.all_cons]
      rw [← Bool.and_assoc, Bool.and_comm (f b) (f a), Bool.and_assoc]
  | trans _ _ ih1 ih2 => rw [ih1, ih2]

theorem getField_of_perm {l l2 : List (String × JVal)} (h : l.Perm l2)
    (hnd : (l.map Prod.fst).Nodup) (key : String) : getField l key = getField l2 key := by
  induction h with
  | nil => rfl
  | cons a h ih =>
      simp only [List.map_cons, List.nodup_cons] at hnd
      simp only [getField]
      rw [ih hnd.2]
  | swap a b l =>
      simp only [List.map_cons, List.nodup_cons, List.mem_cons] at hnd
      simp only [getField]
      by_cases hb : (b.1 == key) = true <;> by_cases ha : (a.1 == key) = true
      · exact absurd (Or.inl ((eq_of_beq hb).trans (eq_of_beq ha).symm)) hnd.1
      · simp [ha, hb]
      · simp [ha, hb]
      · simp [ha, hb]
  | trans h1 h2 ih1 ih2 =>
      rw [ih1 hnd, ih2 (((h1.map Prod.fst).nodup_iff).mp hnd)]

theorem getField_cons_self (k : String) (v : JVal) (fields : List (String × JVal)) :
    getField ((k, v) :: fields) k = some v := by
  simp [getField]

/-- Inserting a fresh binding at the front of a request that already
validates re-validates every untouched property, so the outcome is the
check of the new value alone. The next three lemmas instantiate this for
the three optional properties of the scrape contract. -/
theorem validate_insert_delay (fields : List (String × JVal)) (d : Rat)
    (h : validateScrapeRequest (JVal.jobj fields) = true) :
    validateScrapeRequest (JVal.jobj (("delay_seconds", JVal.jnum d) :: fields)) =
      (decide ((0 : Rat) < d) && decide (d ≤ (5 : Rat))) := by
  simp only [validateScrapeRequest, validateObj, ufcscrapeInputSchema, leafProp, strLeaf,
    dateLeaf, tyLeaf, List.all_cons, List.all_nil, getField, validateProp, validateLeaf,
    typeOk, validateObjWith] at h ⊢
  simp only [String.reduceBEq, if_false, Bool.if_false_left] at h ⊢
  simp_all

theorem validate_insert_batch (fields : List (String × JVal)) (q : Rat)
    (h : validateScrapeRequest (JVal.jobj fields) = true) :
    validateScrapeRequest (JVal.jobj (("batch_size", JVal.jnum q) :: fields)) =
      (q.den == 1 && decide ((1 : Rat) ≤ q) && decide (q ≤ (1000 : Rat))) := by
  simp only [validateScrapeRequest, validateObj, ufcscrapeInputSchema, leafProp, strLeaf,
    dateLeaf, tyLeaf, List.all_cons, List.all_nil, getField, validateProp, validateLeaf,
    typeOk, validateObjWith] at h ⊢
  simp only [String.reduceBEq, if_false, Bool.if_false_left] at h ⊢
  simp_all

theorem validate_insert_date_range (fields : List (String × JVal))
    (dr : List (String × JVal)) (h : validateScrapeRequest (JVal.jobj fields) = true) :
    validateScrapeRequest (JVal.jobj (("date_range", JVal.jobj dr) :: fields)) =
      validateObjWith [("start_date", dateLeaf), ("end_date", dateLeaf)] [] dr := by
  simp only [validateScrapeRequest, validateObj, ufcscrapeInputSchema, leafProp, strLeaf,
    dateLeaf, tyLeaf, List.all_cons, List.all_nil, getField, validateProp, validateLeaf,
    typeOk] at h ⊢
  simp only [String.reduceBEq, if_false, Bool.if_false_left] at h ⊢
  simp_all [validateObjWith, dateLeaf]

/-! ## Claim theorems: the scrape-request contract -/

/-- C2: for every scrape request that is otherwise valid, validation
succeeds when `delay_seconds` is any of 0.1, 1.0, 2.5, 5.0 and fails when
it is any of 0.0, -0.1, 5.1 — the lower bound 0.0 is strictly exclusive
and the upper bound 5.0 is inclusive. -/
theorem claim_c2_delay_seconds_bounds (fields : List (String × JVal))
    (h : validateScrapeRequest (JVal.jobj fields) = true) :
    (∀ d : Rat, d ∈ [(0.1 : Rat), 1.0, 2.5, 5.0] →
      validateScrapeRequest (JVal.jobj (("delay_seconds", JVal.jnum d) :: fields)) = true) ∧
    (∀ d : Rat, d ∈ [(0.0 : Rat), -0.1, 5.1] →
      validateScrapeRequest (JVal.jobj (("delay_seconds", JVal.jnum d) :: fields)) = false) := by
  constructor <;> intro d hd <;> rw [validate_insert_delay fields d h] <;>
    fin_cases hd <;> norm_num

theorem claim_c2_witness :
    validateScrapeRequest (JVal.jobj [("delay_seconds", JVal.jnum 5.0),
      ("scrape_type", JVal.jstr "fighters"), ("output_dir", JVal.jstr "/tmp/test")]) = true ∧
    validateScrapeRequest (JVal.jobj [("delay_seconds", JVal.jnum 5.1),
      ("scrape_type", JVal.jstr "fighters"), ("output_dir", JVal.jstr "/tmp/test")]) = false :=
  ⟨(claim_c2_delay_seconds_bounds
      [("scrape_type", JVal.jstr "fighters"), ("output_dir", JVal.jstr "/tmp/test")]
      (by decide)).1 5.0 (by norm_num),
   (claim_c2_delay_seconds_bounds
      [("scrape_type", JVal.jstr "fighters"), ("output_dir", JVal.jstr "/tmp/test")]
      (by decide)).2 5.1 (by norm_num)⟩

/-- C3: for every scrape request that is otherwise valid, validation
succeeds when `batch_size` is any of 1, 50, 500, 1000 and fails when it is
any of 0, -1, 1001 — both bounds of [1, 1000] are inclusive. -/
theorem claim_c3_batch_size_bounds (fields : List (String × JVal))
    (h : validateScrapeRequest (JVal.jobj fields) = true) :
    (∀ q : Rat, q ∈ [(1 : Rat), 50, 500, 1000] →
      validateScrapeRequest (JVal.jobj (("batch_size", JVal.jnum q) :: fields)) = true) ∧
    (∀ q : Rat, q ∈ [(0 : Rat), -1, 1001] →
      validateScrapeRequest (JVal.jobj (("batch_size", JVal.jnum q) :: fields)) = false) := by
  constructor <;> intro q hq <;> rw [validate_insert_batch fields q h] <;>
    fin_cases hq <;> decide

theorem claim_c3_witness :
    validateScrapeRequest (JVal.jobj [("batch_size", JVal.jnum 1000),
      ("scrape_type", JVal.jstr "fighters"), ("output_dir", JVal.jstr "/tmp/test")]) = true ∧
    validateScrapeRequest (JVal.jobj [("batch_size", JVal.jnum 1001),
      ("scrape_type", JVal.jstr "fighters"), ("output_dir", JVal.jstr "/tmp/test")]) = false :=
  ⟨(claim_c3_batch_size_bounds
      [("scrape_type", JVal.jstr "fighters"), ("output_dir", JVal.jstr "/tmp/test")]
      (by decide)).1 1000 (by decide),
   (claim_c3_batch_size_bounds
      [("scrape_type", JVal.jstr "fighters"), ("output_dir", JVal.jstr "/tmp/test")]
      (by decide)).2 1001 (by decide)⟩

/-- C4: a candidate scrape request in which `scrape_type` or `output_dir`
is absent fails validation regardless of all other fields. -/
theorem claim_c4_required_fields (fields : List (String × JVal))
    (h : getField fields "scrape_type" = none ∨ getField fields "output_dir" = none) :
    validateScrapeRequest (JVal.jobj fields) = false := by
  simp only [validateScrapeRequest, validateObj, ufcscrapeInputSchema, List.all_cons,
    List.all_nil]
  rcases h with h | h <;> simp [h]

theorem claim_c4_witness :
    validateScrapeRequest (JVal.jobj [("scrape_type", JVal.jstr "fighters")]) = false :=
  claim_c4_required_fields [("scrape_type", JVal.jstr "fighters")] (Or.inr rfl)

/-- C5: a request whose `date_range.start_date` is the malformed string
"invalid-date" fails validation independently of the `end_date` value even
when the required fields are present and valid, while a `date_range` of
well-formed ISO dates validates. -/
theorem claim_c5_date_format (fields : List (String × JVal)) (ed : JVal)
    (h : validateScrapeRequest (JVal.jobj fields) = true) :
    validateScrapeRequest (JVal.jobj (("date_range",
        JVal.jobj [("start_date", JVal.jstr "invalid-date"), ("end_date", ed)]) :: fields))
      = false ∧
    validateScrapeRequest (JVal.jobj (("date_range",
        JVal.jobj [("start_date", JVal.jstr "2024-01-01"),
                   ("end_date", JVal.jstr "2024-12-31")]) :: fields)) = true := by
  have hbad : isIsoDate "invalid-date" = false := rfl
  constructor <;> rw [validate_insert_date_range fields _ h]
  · simp [validateObjWith, getField, validateLeaf, dateLeaf, typeOk, hbad]
  · decide

theorem claim_c5_witness :
    validateScrapeRequest (JVal.jobj [("date_range",
        JVal.jobj [("start_date", JVal.jstr "invalid-date"),
                   ("end_date", JVal.jstr "2024-12-31")]),
      ("scrape_type", JVal.jstr "fighters"), ("output_dir", JVal.jstr "/tmp/test")]) = false :=
  (claim_c5_date_format
      [("scrape_type", JVal.jstr "fighters"), ("output_dir", JVal.jstr "/tmp/test")]
      (JVal.jstr "2024-12-31") (by decide)).1

/-- C6: every `scrape_type` in {fighters, bouts, events, all} together with
a present `output_dir` validates, and `scrape_type = "invalid_type"` fails
validation regardless of the other fields. -/
theorem claim_c6_scrape_type_enum (d : String) :
    (∀ t ∈ ["fighters", "bouts", "events", "all"],
      validateScrapeRequest (JVal.jobj
        [("scrape_type", JVal.jstr t), ("output_dir", JVal.jstr d)]) = true) ∧
    (∀ fields : List (String × JVal),
      getField fields "scrape_type" = some (JVal.jstr "invalid_type") →
      validateScrapeRequest (JVal.jobj fields) = false) := by
  have henum : (["fighters", "bouts", "events", "all"].contains "invalid_type") = false := rfl
  constructor
  · intro t ht
    fin_cases ht <;>
      simp [validateScrapeRequest, validateObj, ufcscrapeInputSchema, getField,
        validateProp, validateLeaf, typeOk, leafProp, strLeaf]
  · intro fields h
    simp [validateScrapeRequest, validateObj, ufcscrapeInputSchema, h, validateProp,
      validateLeaf, leafProp, henum]

theorem claim_c6_witness :
    validateScrapeRequest (JVal.jobj [("scrape_type", JVal.jstr "events"),
      ("output_dir", JVal.jstr "/tmp/test")]) = true ∧
    validateScrapeRequest (JVal.jobj [("scrape_type", JVal.jstr "invalid_type"),
      ("output_dir", JVal.jstr "/tmp/test")]) = false :=
  ⟨(claim_c6_scrape_type_enum "/tmp/test").1 "events" (by decide),
   (claim_c6_scrape_type_enum "/tmp/test").2
      [("scrape_type", JVal.jstr "invalid_type"), ("output_dir", JVal.jstr "/tmp/test")] rfl⟩

/-- C8: validation is a pure, deterministic function of the pair (record,
schema): the same record against the same schema always yields the same
outcome (in this pure embedding, definitionally so), and there is no hidden
state or field-ordering dependency — reordering the fields of a record with
distinct keys cannot change the outcome. -/
theorem claim_c8_validation_deterministic (s : ObjSchema) (r : JVal)
    (fields fields2 : List (String × JVal)) (hperm : fields.Perm fields2)
    (hnd : (fields.map Prod.fst).Nodup) :
    validateObj s r = validateObj s r ∧
    validateObj s (JVal.jobj fields) = validateObj s (JVal.jobj fields2) := by
  refine ⟨rfl, ?_⟩
  have hg : ∀ key, getField fields key = getField fields2 key := getField_of_perm hperm hnd
  simp only [validateObj]
  have h1 : (fun k => (getField fields k).isSome) = (fun k => (getField fields2 k).isSome) :=
    funext (fun k => by rw [hg k])
  have h2 : (fun kv : String × PropSchema =>
        match getField fields kv.1 with
        | none => true
        | some v2 => validateProp kv.2 v2) =
      (fun kv : String × PropSchema =>
        match getField fields2 kv.1 with
        | none => true
        | some v2 => validateProp kv.2 v2) :=
    funext (fun kv => by rw [hg kv.1])
  rw [h1, h2]

theorem runDirs_nil (w : DirWorld) (force : Bool) (st : InitState) :
    runDirs w force st [] = st := rfl

theorem runDirs_cons (w : DirWorld) (force : Bool) (st : InitState) (d : String)
    (ds : List String) :
    runDirs w force st (d :: ds) = runDirs w force (createStep w force st d) ds := rfl

theorem runDirs_append (w : DirWorld) (force : Bool) (st : InitState)
    (l1 l2 : List String) :
    runDirs w force st (l1 ++ l2) = runDirs w force (runDirs w force st l1) l2 :=
  List.foldl_append _ _ _ _

/-- In default (non-force) mode, one creation step either skips an existing
path, or records a `mkdir` failure, or creates the directory — recording a
touch failure when the marker file cannot be written. -/
theorem createStep_eq (w : DirWorld) (st : InitState) (d : String) :
    createStep w false st d =
      if pathExists st.fs d then st
      else if w.mkdirFails d then
        { st with errors :=
            st.errors ++ ["Failed to create " ++ d ++ ": " ++ ("Permission denied creating " ++ d)] }
      else if w.touchFails d then
        { fs := mkdirParents st.fs d,
          created_dirs := st.created_dirs ++ [d],
          errors := st.errors ++ ["Failed to create " ++ d ++ ": " ++ ("OS error creating " ++ d)] }
      else
        { fs := { dirs := st.fs.dirs ++ dirAncestors d,
                  files := st.fs.files ++ [d ++ ".gitkeep"] },
          created_dirs := st.created_dirs ++ [d],
          errors := st.errors } := by
  simp only [createStep, create_directory, mkdirAndTouch, Bool.not_false, if_true]
  by_cases h1 : pathExists st.fs d = true <;> by_cases h2 : w.mkdirFails d = true <;>
    by_cases h3 : w.touchFails d = true <;>
    simp [h1, h2, h3, mkdirParents]

/-- In non-force mode every component of the state only grows: the step
appends to the directory list, the file list, the created list and the
error list. -/
theorem createStep_extends (w : DirWorld) (st : InitState) (d : String) :
    ∃ a b c e, (createStep w false st d).fs.dirs = st.fs.dirs ++ a ∧
               (createStep w false st d).fs.files = st.fs.files ++ b ∧
               (createStep w false st d).created_dirs = st.created_dirs ++ c ∧
               (createStep w false st d).errors = st.errors ++ e := by
  rw [createStep_eq]
  by_cases h1 : pathExists st.fs d = true
  · rw [if_pos h1]
    exact ⟨[], [], [], [], by simp⟩
  · rw [if_neg h1]
    by_cases h2 : w.mkdirFails d = true
    · rw [if_pos h2]
      exact ⟨[], [], [],
        ["Failed to create " ++ d ++ ": " ++ ("Permission denied creating " ++ d)], by simp⟩
    · rw [if_neg h2]
      by_cases h3 : w.touchFails d = true
      · rw [if_pos h3]
        exact ⟨dirAncestors d, [], [d],
          ["Failed to create " ++ d ++ ": " ++ ("OS error creating " ++ d)],
          by simp [mkdirParents]⟩
      · rw [if_neg h3]
        exact ⟨dirAncestors d, [d ++ ".gitkeep"], [d], [], by simp⟩

theorem runDirs_extends (w : DirWorld) (ds : List String) :
    ∀ st : InitState,
      ∃ a b c e, (runDirs w false st ds).fs.dirs = st.fs.dirs ++ a ∧
                 (runDirs w false st ds).fs.files = st.fs.files ++ b ∧
                 (runDirs w false st ds).created_dirs = st.created_dirs ++ c ∧
                 (runDirs w false st ds).errors = st.errors ++ e := by
  induction ds with
  | nil => exact fun st => ⟨[], [], [], [], by simp [runDirs_nil]⟩
  | cons d ds ih =>
      intro st
      obtain ⟨a, b, c, e, h1, h2, h3, h4⟩ := createStep_extends w st d
      obtain ⟨a2, b2, c2, e2, g1, g2, g3, g4⟩ := ih (createStep w false st d)
      refine ⟨a ++ a2, b ++ b2, c ++ c2, e ++ e2, ?_, ?_, ?_, ?_⟩ <;>
        rw [runDirs_cons] <;>
        simp [g1, g2, g3, g4, h1, h2, h3, h4]

/-- An existing path survives a non-force run. -/
theorem runDirs_pathExists_mono (w : DirWorld) (ds : List String) (st : InitState)
    (p : String) (h : pathExists st.fs p = true) :
    pathExists (runDirs w false st ds).fs p = true := by
  obtain ⟨a, b, c, e, h1, h2, _, _⟩ := runDirs_extends w ds st
  simp only [pathExists] at h ⊢
  rw [h1, h2]
  simp at h ⊢
  tauto

/-- An existing path survives a single non-force step. -/
theorem createStep_pathExists_mono (w : DirWorld) (st : InitState) (d p : String)
    (h : pathExists st.fs p = true) :
    pathExists (createStep w false st d).fs p = true := by
  obtain ⟨a, b, c, e, h1, h2, _, _⟩ := createStep_extends w st d
  simp only [pathExists] at h ⊢
  rw [h1, h2]
  simp at h ⊢
  tauto

/-- With no operating-system failures, one non-force step either skips an
existing path or creates the directory with its marker file. -/
theorem createStep_noFail (st : InitState) (d : String) :
    createStep noFailWorld false st d =
      if pathExists st.fs d then st
      else
        { fs := { dirs := st.fs.dirs ++ dirAncestors d,
                  files := st.fs.files ++ [d ++ ".gitkeep"] },
          created_dirs := st.created_dirs ++ [d],
          errors := st.errors } := by
  rw [createStep_eq]
  simp [noFailWorld]

/-- Every entry of the fixed directory list ends in `/` and hence is one of
its own ancestor directories. -/
theorem structure_self_ancestor :
    ∀ d ∈ directoryStructure, (dirAncestors d).contains d = true := by
  decide

/-- After a failure-free non-force run, every processed directory whose
path is its own ancestor exists. -/
theorem runDirs_noFail_exists (ds : List String) :
    ∀ st : InitState, (∀ d ∈ ds, (dirAncestors d).contains d = true) →
      ∀ d ∈ ds, pathExists (runDirs noFailWorld false st ds).fs d = true := by
  induction ds with
  | nil => intro st _ d hd; simp at hd
  | cons d0 ds ih =>
      intro st hself d hd
      rw [runDirs_cons]
      rcases List.mem_cons.mp hd with rfl | hd2
      · apply runDirs_pathExists_mono
        rw [createStep_noFail]
        by_cases h : pathExists st.fs d = true
        · rw [if_pos h]; exact h
        · rw [if_neg h]
          have hin : (dirAncestors d).contains d = true := hself d (List.mem_cons_self _ _)
          simp only [pathExists] at *
          simp at hin ⊢
          tauto
      · exact ih _ (fun x hx => hself x (List.mem_cons_of_mem _ hx)) d hd2

/-- Failure-free non-force runs preserve the invariant that every recorded
created directory carries its marker file. -/
theorem runDirs_noFail_gitkeep (ds : List String) :
    ∀ st : InitState,
      (∀ c ∈ st.created_dirs, (c ++ ".gitkeep") ∈ st.fs.files) →
      ∀ c ∈ (runDirs noFailWorld false st ds).created_dirs,
        (c ++ ".gitkeep") ∈ (runDirs noFailWorld false st ds).fs.files := by
  induction ds with
  | nil => intro st h c hc; rw [runDirs_nil] at hc ⊢; exact h c hc
  | cons d0 ds ih =>
      intro st h c hc
      rw [runDirs_cons] at hc ⊢
      refine ih _ ?_ c hc
      intro c2 hc2
      rw [createStep_noFail] at hc2 ⊢
      by_cases hex : pathExists st.fs d0 = true
      · rw [if_pos hex] at hc2 ⊢; exact h c2 hc2
      · rw [if_neg hex] at hc2 ⊢
        simp only [List.mem_append, List.mem_singleton] at hc2 ⊢
        rcases hc2 with hc2 | rfl
        · exact Or.inl (h c2 hc2)
        · exact Or.inr rfl

/-- A path that already exists and is not yet recorded as created is never
recorded as created by a failure-free non-force run. -/
theorem runDirs_noFail_preexisting (ds : List String) :
    ∀ st : InitState, ∀ d : String,
      pathExists st.fs d = true → d ∉ st.created_dirs →
      d ∉ (runDirs noFailWorld false st ds).created_dirs := by
  induction ds with
  | nil => intro st d _ h2; rw [runDirs_nil]; exact h2
  | cons d0 ds ih =>
      intro st d h1 h2
      rw [runDirs_cons]
      refine ih _ d (createStep_pathExists_mono _ _ _ _ h1) ?_
      rw [createStep_noFail]
      by_cases hex : pathExists st.fs d0 = true
      · rw [if_pos hex]; exact h2
      · rw [if_neg hex]
        simp only [List.mem_append, List.mem_singleton]
        rintro (hmem | rfl)
        · exact h2 hmem
        · exact absurd h1 (by simp [hex])

theorem claim_c8_witness :
    validateObj ufcscrapeInputSchema (JVal.jobj
      [("scrape_type", JVal.jstr "fighters"), ("output_dir", JVal.jstr "/tmp/test")]) =
    validateObj ufcscrapeInputSchema (JVal.jobj
      [("output_dir", JVal.jstr "/tmp/test"), ("scrape_type", JVal.jstr "fighters")]) :=
  (claim_c8_validation_deterministic ufcscrapeInputSchema JVal.jnull
    [("scrape_type", JVal.jstr "fighters"), ("output_dir", JVal.jstr "/tmp/test")]
    [("output_dir", JVal.jstr "/tmp/test"), ("scrape_type", JVal.jstr "fighters")]
    (List.Perm.swap _ _ _) (by simp)).2

theorem depsFold_counts (f : String → Bool) (packages : List String) :
    ∀ acc : DepsAcc,
      (packages.foldl (depsStep f) acc).installed_count +
        (packages.foldl (depsStep f) acc).missing_count =
      acc.installed_count + acc.missing_count + packages.length := by
  induction packages with
  | nil => intro acc; simp
  | cons p ps ih =>
      intro acc
      rw [List.foldl_cons, ih]
      simp only [depsStep]
      by_cases h : f (get_import_name p) = true <;> simp [h] <;> omega

theorem deps_default_ok (f : String → Bool) :
    ∃ r : DepsResult, validate_dependencies defaultPackages f = Except.ok r :=
  ⟨_, rfl⟩

/-- The python-version result dictionary carries `is_valid`, holding
exactly the tuple comparison against the minimum version. -/
theorem python_dict_validity (current : Nat × Nat × Nat) (minv : Nat × Nat)
    (p a : String) (dflt : PyVal) :
    pyGet (validate_python_version current minv p a) "is_valid" dflt =
      PyVal.pybool (versionMeets current minv) := by
  simp only [validate_python_version]
  by_cases h : versionMeets current minv = true <;> simp [h, setK, pyGet]

/-- The dependencies result dictionary has neither an `is_valid` nor a
`success` key, so `main`'s lookup falls through to the default `True`. -/
theorem deps_dict_no_validity (r : DepsResult) :
    pyGet (depsDict r) "is_valid" (pyGet (depsDict r) "success" (PyVal.pybool true)) =
      PyVal.pybool true := rfl

/-- The gpu result dictionary has neither an `is_valid` nor a `success`
key (it reports through `status`), so `main`'s lookup falls through to the
default `True` whatever the machine state. -/
theorem gpu_dict_no_validity (e : GpuEnv) :
    pyGet (validate_gpu e) "is_valid" (pyGet (validate_gpu e) "success" (PyVal.pybool true)) =
      PyVal.pybool true := by
  obtain ⟨t, c, n, tm, am, s, sv⟩ := e
  cases t <;> cases c <;> cases s <;> simp [validate_gpu, setK, pyGet]

/-- The system result dictionary has neither an `is_valid` nor a `success`
key (it reports through `status`), so `main`'s lookup falls through to the
default `True` whatever the machine state. -/
theorem system_dict_no_validity (e : SysEnv) :
    pyGet (validate_system_resources e) "is_valid"
      (pyGet (validate_system_resources e) "success" (PyVal.pybool true)) =
      PyVal.pybool true := by
  simp only [validate_system_resources]
  by_cases h1 : pyRound1 (e.memAvailableBytes / 1000000000) < 8 <;>
    by_cases h2 : pyRound1 (e.diskFreeBytes / 1000000000) < 20 <;>
    simp [h1, h2, setK, pyGet]

/-! ## Claim theorems: the directory initializer -/

/-- C7 (counterexample): with `src/` already present before a default-mode
run, the run finishes but `src/.gitkeep` does not exist afterwards — the
claim that every listed directory is marked with `.gitkeep` "including
directories that already existed before the run" is false: an existing
path is skipped before the marker-file step. -/
theorem claim_c7_counterexample :
    "src/" ∈ directoryStructure ∧
    pathExists { dirs := ["src/"], files := [] } "src/" = true ∧
    (create_directory_structure noFailWorld false
        { dirs := ["src/"], files := [] }).2.files.contains ("src/" ++ ".gitkeep") = false := by
  refine ⟨by decide, by decide, by decide⟩

/-- C7 (amended): after a default-mode run with no operating-system
failures, every directory of the fixed list exists under the base path
(parents created as needed), and every directory the run itself created is
marked with an empty `.gitkeep` marker file; directories that already
existed before the run are skipped — they are not recorded as created and
receive no marker. -/
theorem claim_c7_init_creates_structure (fs0 : FS) (d : String)
    (hd : d ∈ directoryStructure) :
    pathExists (create_directory_structure noFailWorld false fs0).2 d = true ∧
    (d ∈ (create_directory_structure noFailWorld false fs0).1.created_directories →
      (d ++ ".gitkeep") ∈ (create_directory_structure noFailWorld false fs0).2.files) ∧
    (pathExists fs0 d = true →
      d ∉ (create_directory_structure noFailWorld false fs0).1.created_directories) := by
  simp only [create_directory_structure]
  refine ⟨?_, ?_, ?_⟩
  · exact runDirs_noFail_exists directoryStructure
      { fs := fs0, created_dirs := [], errors := [] } structure_self_ancestor d hd
  · intro hc
    exact runDirs_noFail_gitkeep directoryStructure
      { fs := fs0, created_dirs := [], errors := [] } (by simp) d hc
  · intro hex
    exact runDirs_noFail_preexisting directoryStructure
      { fs := fs0, created_dirs := [], errors := [] } d hex (by simp)

theorem claim_c7_witness :
    pathExists (create_directory_structure noFailWorld false { dirs := [], files := [] }).2
      "data/raw/" = true ∧
    ("data/raw/" ∈
        (create_directory_structure noFailWorld false
          { dirs := [], files := [] }).1.created_directories →
      ("data/raw/" ++ ".gitkeep") ∈
        (create_directory_structure noFailWorld false { dirs := [], files := [] }).2.files) :=
  ⟨(claim_c7_init_creates_structure { dirs := [], files := [] } "data/raw/" (by decide)).1,
   (claim_c7_init_creates_structure { dirs := [], files := [] } "data/raw/" (by decide)).2.1⟩

/-- C9: a failure on one directory does not abort the run — wherever an
entry of the fixed list raises (given the state actually reached at that
point of the run), the wrapped error is appended to the aggregated error
list of the final result, the remaining entries still being processed —
and the result's `success` field is true exactly when that list is empty. -/
theorem claim_c9_failure_tolerance (w : DirWorld) (fs0 : FS) :
    ((create_directory_structure w false fs0).1.success = true ↔
      (create_directory_structure w false fs0).1.errors = []) ∧
    (create_directory_structure w false fs0).1.total_errors =
      ((create_directory_structure w false fs0).1.errors).length ∧
    (∀ l1 d l2, directoryStructure = l1 ++ d :: l2 →
      ∀ msg,
        (create_directory w false
            (runDirs w false { fs := fs0, created_dirs := [], errors := [] } l1) d).2 = some msg →
        ("Failed to create " ++ d ++ ": " ++ msg) ∈
          (create_directory_structure w false fs0).1.errors) := by
  simp only [create_directory_structure]
  refine ⟨by simp [List.length_eq_zero], by trivial, ?_⟩
  intro l1 d l2 heq msg hmsg
  rw [heq, runDirs_append, runDirs_cons]
  have hstep : ("Failed to create " ++ d ++ ": " ++ msg) ∈
      (createStep w false (runDirs w false { fs := fs0, created_dirs := [], errors := [] } l1) d).errors := by
    rcases hcd : create_directory w false
        (runDirs w false { fs := fs0, created_dirs := [], errors := [] } l1) d with ⟨st1, opt⟩
    rw [hcd] at hmsg
    simp only at hmsg
    subst hmsg
    simp [createStep, hcd]
  obtain ⟨a, b, c, e, _, _, _, h4⟩ := runDirs_extends w l2
    (createStep w false (runDirs w false { fs := fs0, created_dirs := [], errors := [] } l1) d)
  rw [h4]
  exact List.mem_append_left _ hstep

theorem claim_c9_witness :
    ("Failed to create " ++ "src/" ++ ": " ++ ("Permission denied creating " ++ "src/")) ∈
      (create_directory_structure
        { mkdirFails := fun p => p == "src/",
          touchFails := fun _ => false,
          removeFails := fun _ => false }
        false { dirs := [], files := [] }).1.errors :=
  (claim_c9_failure_tolerance
      { mkdirFails := fun p => p == "src/",
        touchFails := fun _ => false,
        removeFails := fun _ => false }
      { dirs := [], files := [] }).2.2 [] "src/" directoryStructure.tail rfl
    ("Permission denied creating " ++ "src/") rfl



/-! ## Claim theorems: the environment validator -/

/-- C10: for a non-empty package list, `validate_dependencies` returns a
record with `installed_count + missing_count = total_packages` and
`success_rate = round(installed_count / total_packages * 100, 1)`; for the
empty list, the unguarded division by `total_packages` raises
`ZeroDivisionError` instead of returning a result. -/
theorem claim_c10_dependency_counts (packages : List String) (findSpec : String → Bool) :
    (packages ≠ [] →
      ∃ r : DepsResult, validate_dependencies packages findSpec = Except.ok r ∧
        r.installed_count + r.missing_count = r.total_packages ∧
        r.total_packages = packages.length ∧
        r.success_rate =
          pyRound1 (((r.installed_count : Rat) / (r.total_packages : Rat)) * 100)) ∧
    (packages = [] →
      validate_dependencies packages findSpec = Except.error "ZeroDivisionError") := by
  constructor
  · intro hne
    simp only [validate_dependencies]
    have h0 : ¬ (packages.length == 0) = true := by
      simpa [List.length_eq_zero] using hne
    rw [if_neg h0]
    refine ⟨_, rfl, ?_, rfl, rfl⟩
    have := depsFold_counts findSpec packages
      { installed := [], missing := [], installed_count := 0, missing_count := 0 }
    simpa using this
  · intro h
    subst h
    rfl

theorem claim_c10_witness :
    (∃ r : DepsResult,
      validate_dependencies defaultPackages (fun _ => false) = Except.ok r ∧
        r.installed_count + r.missing_count = r.total_packages ∧
        r.total_packages = defaultPackages.length ∧
        r.success_rate =
          pyRound1 (((r.installed_count : Rat) / (r.total_packages : Rat)) * 100)) ∧
    validate_dependencies [] (fun _ => false) = Except.error "ZeroDivisionError" :=
  ⟨(claim_c10_dependency_counts defaultPackages (fun _ => false)).1 (by simp [defaultPackages]),
   (claim_c10_dependency_counts [] (fun _ => false)).2 rfl⟩

/-- C1 (counterexample): with only `--gpu` requested on a machine without
`torch`, the gpu probe's result reports failure (`status = "fail"`) yet
`environment.main` exits with code 0 — the claim that any requested probe
reporting failure makes the process exit nonzero is false on the code. -/
theorem claim_c1_counterexample :
    pyGet (validate_gpu
        { torchOk := false, cudaAvailable := false, gpuName := "",
          totalMemoryBytes := 0, allocatedMemoryBytes := 0,
          smiOk := false, smiCudaVersion := "" }) "status" PyVal.pynone = PyVal.pystr "fail" ∧
    (env_main { python := false, dependencies := false, gpu := true, system := false }
        { currentVersion := (3, 12, 0), platformStr := "linux", archStr := "x86_64",
          findSpec := fun _ => false,
          gpu := { torchOk := false, cudaAvailable := false, gpuName := "",
                   totalMemoryBytes := 0, allocatedMemoryBytes := 0,
                   smiOk := false, smiCudaVersion := "" },
          sys := { memTotalBytes := 0, memAvailableBytes := 0, memPercent := 0,
                   diskTotalBytes := 0, diskFreeBytes := 0, diskPercent := 0 } }).2 = 0 :=
  ⟨rfl, rfl⟩

/-- C1 (amended): the directory initializer exits 0 exactly when its
result reports success (create mode: no aggregated errors; validate mode:
no missing directory). The environment validator's exit code, however,
reflects only the results that carry an `is_valid` or `success` key: it is
0 exactly when the python probe, if requested (explicitly or by the
all-probes default), reports a sufficient interpreter version — failures
of the dependencies, gpu and system probes, which report through counts or
a `status` field, never make the exit code nonzero. -/
theorem claim_c1_exit_codes (wD : DirWorld) (force : Bool) (fs0 : FS)
    (args : EnvArgs) (ew : EnvWorld) :
    (init_main_exit wD force false fs0 = 0 ↔
      (create_directory_structure wD force fs0).1.success = true) ∧
    (init_main_exit wD force true fs0 = 0 ↔
      (validate_structure fs0).validation_passed = true) ∧
    ((env_main args ew).2 = 0 ↔
      ((args.python || !(args.python || args.dependencies || args.gpu || args.system)) = true →
        versionMeets ew.currentVersion (3, 11) = true)) := by
  refine ⟨?_, ?_, ?_⟩
  · simp only [init_main_exit, Bool.false_eq_true, if_false]
    by_cases h : (create_directory_structure wD force fs0).1.success = true <;> simp [h]
  · simp only [init_main_exit, if_true]
    by_cases h : (validate_structure fs0).validation_passed = true <;> simp [h]
  · obtain ⟨p, dp, g, sy⟩ := args
    obtain ⟨r, hr⟩ := deps_default_ok ew.findSpec
    cases p <;> cases dp <;> cases g <;> cases sy <;>
      simp only [env_main, hr] <;>
      simp only [Bool.or_true, Bool.or_false, Bool.false_or, Bool.true_or, Bool.or_self,
        Bool.not_true, Bool.not_false, Bool.false_eq_true, if_true, if_false,
        Bool.true_eq_false, ite_true, ite_false] <;>
      simp only [List.all_cons, List.all_nil, List.append_nil, List.nil_append,
        List.cons_append, python_dict_validity, deps_dict_no_validity,
        gpu_dict_no_validity, system_dict_no_validity, truthy, Bool.and_true] <;>
      by_cases hv : versionMeets ew.currentVersion (3, 11) = true <;>
      simp [hv]
